import Mathlib

/-!
# RoomMate-AI dashboard script: gesture classifier, debounce, event log, device control

A shallow embedding of `static/script.js`.

* Landmark coordinates are JavaScript numbers.  Every finite number is a rational and the
  comparisons `<` and `>` on finite numbers agree with the order of `ℚ`, so a coordinate is a `ℚ`.
* A JavaScript exception (`TypeError` on `undefined.y`, on `null.textContent`) is `Except.error`.
* The page globals `lastGestureSent`, `gestureDebounce` and the text of the element
  `detectedGesture` form `GestureState`; the callbacks are functions on that state.
* Time is a count of milliseconds.  `gestureDebounce` holds the handle of the timer created by
  `setTimeout`; the model keeps, under that handle, the timer while it has not run
  (`none` once it ran: `clearTimeout` on the handle of a timer that ran does nothing).
* The DOM elements the script writes are the fields of `Dashboard`.
* Log entries are written through `innerHTML`.  What the HTML parser of the browser makes of
  such a text (whether it holds an element of class `log-empty`) is the parameter `inMarkup`.
-/

namespace RoomMate

/-! ## Hand landmarks and the classifier (`detectGestureFromLandmarks`, lines 297-331) -/

/-- One hand landmark of a frame: normalised coordinates. -/
structure Landmark where
  x : ℚ
  y : ℚ
  z : ℚ
deriving DecidableEq

/-- The expression `landmarks[i].y`: a `TypeError` when the array has no element `i`. -/
def landmarkY (landmarks : List Landmark) (i : Nat) : Except String ℚ :=
  match landmarks[i]? with
  | some p => .ok p.y
  | none => .error "TypeError: Cannot read properties of undefined (reading y)"

/-- The function `detectGestureFromLandmarks` (lines 297-331); `null` is `none`. -/
def detectGestureFromLandmarks (landmarks : List Landmark) : Except String (Option String) := do
  let thumbTip ← landmarkY landmarks 4
  let thumbIp ← landmarkY landmarks 3
  let indexTip ← landmarkY landmarks 8
  let indexMcp ← landmarkY landmarks 5
  let middleTip ← landmarkY landmarks 12
  let middleMcp ← landmarkY landmarks 9
  let ringTip ← landmarkY landmarks 16
  let ringMcp ← landmarkY landmarks 13
  let pinkyTip ← landmarkY landmarks 20
  let pinkyMcp ← landmarkY landmarks 17
  if thumbTip < thumbIp ∧ indexTip > indexMcp ∧ middleTip > middleMcp then
    return some "fan_on"
  else if indexTip < indexMcp ∧ middleTip < middleMcp ∧ ringTip > ringMcp ∧ pinkyTip > pinkyMcp then
    return some "light_on"
  else if indexTip < indexMcp ∧ middleTip < middleMcp ∧ ringTip < ringMcp ∧ pinkyTip < pinkyMcp then
    return some "fan_off"
  else if indexTip > indexMcp ∧ middleTip > middleMcp ∧ ringTip > ringMcp ∧ pinkyTip > pinkyMcp then
    return some "light_off"
  return none

/-- The function `formatGesture` (lines 90-98): the map entry, or the label itself. -/
def formatGesture (gesture : String) : String :=
  if gesture = "fan_on" then "👍 Fan ON"
  else if gesture = "fan_off" then "🖐 Fan OFF"
  else if gesture = "light_on" then "✌ Light ON"
  else if gesture = "light_off" then "✊ Light OFF"
  else gesture

/-! ## The debounce (`onHandResults`, lines 273-295, and its timer) -/

/-- The argument of `onHandResults`: `multiHandLandmarks` is absent or a list of hands. -/
structure Results where
  multiHandLandmarks : Option (List (List Landmark))

/-- A timer created at line 284 that has not run yet. -/
structure Timer where
  /-- Milliseconds until the callback is due. -/
  remaining : Nat
  /-- The value of `gesture` that the callback closes over. -/
  gesture : String
deriving DecidableEq

/-- The globals the gesture path reads and writes. -/
structure GestureState where
  lastGestureSent : Option String
  gestureDebounce : Option Timer
  detectedGesture : String
deriving DecidableEq

/-- The page right after load: `lastGestureSent = null`, `gestureDebounce = null`. -/
def GestureState.init : GestureState :=
  { lastGestureSent := none, gestureDebounce := none, detectedGesture := "" }

/-- JavaScript truthiness of a value that is `null` or a string. -/
def truthy (v : Option String) : Bool :=
  match v with
  | some s => s ≠ ""
  | none => false

/-- The function `onHandResults` (lines 273-295).  An exception of the classifier leaves the
callback before any assignment. -/
def onHandResults (s : GestureState) (results : Results) : Except String GestureState :=
  match results.multiHandLandmarks with
  | some (landmarks :: _) => do
    let gesture ← detectGestureFromLandmarks landmarks
    match gesture with
    | some g =>
      if truthy (some g) then
        let s1 := { s with detectedGesture := formatGesture g }
        if some g ≠ s.lastGestureSent then
          -- clearTimeout(gestureDebounce); gestureDebounce = setTimeout(..., 1000)
          return { s1 with gestureDebounce := some { remaining := 1000, gesture := g } }
        else
          return s1
      else
        return { s with detectedGesture := "No gesture detected" }
    | none => return { s with detectedGesture := "No gesture detected" }
  | _ => return { s with detectedGesture := "No hand detected" }

/-- The value of the local `gesture` of `onHandResults` (lines 274-276) for a frame, `none`
when the frame has no hand. -/
def observedGesture (results : Results) : Except String (Option String) :=
  match results.multiHandLandmarks with
  | some (landmarks :: _) => detectGestureFromLandmarks landmarks
  | _ => .ok none

/-- The timer callback (lines 284-287): `sendGestureToServer(gesture); lastGestureSent = gesture`.
The second component lists the calls of `sendGestureToServer`. -/
def timerCallback (s : GestureState) (gesture : String) : GestureState × List String :=
  ({ s with lastGestureSent := some gesture, gestureDebounce := none }, [gesture])

/-- What the event loop delivers to the gesture path. -/
inductive Event where
  /-- The hand tracker calls `onHandResults`. -/
  | frame (results : Results)
  /-- The given number of milliseconds pass without a frame. -/
  | elapse (ms : Nat)

/-- One event.  A timer that becomes due while time passes runs its callback; a timer due at
the very instant of a frame runs before the frame.  An exception in `onHandResults` ends that
callback and leaves the globals as they were. -/
def step (s : GestureState) (e : Event) : GestureState × List String :=
  match e with
  | .frame results =>
    match onHandResults s results with
    | .ok s1 => (s1, [])
    | .error _ => (s, [])
  | .elapse ms =>
    match s.gestureDebounce with
    | some t =>
      if t.remaining ≤ ms then timerCallback s t.gesture
      else ({ s with gestureDebounce := some { t with remaining := t.remaining - ms } }, [])
    | none => (s, [])

/-- A sequence of events: the final state and all gestures sent, in order. -/
def run (s : GestureState) : List Event → GestureState × List String
  | [] => (s, [])
  | e :: es => ((run (step s e).1 es).1, (step s e).2 ++ (run (step s e).1 es).2)

/-- Total time that passes in a sequence of events. -/
def elapsed : List Event → Nat
  | [] => 0
  | .frame _ :: es => elapsed es
  | .elapse ms :: es => ms + elapsed es

/-! ## The dashboard elements -/

/-- A child of the element `logContainer`. -/
inductive LogChild where
  /-- The placeholder paragraph of class `log-empty` (line 126). -/
  | empty
  /-- A `div` of class `log-item`; `innerHTML` is the text assigned to its `innerHTML`
  (lines 134-137 and 158-161), which the browser parses into the content of the `div`. -/
  | item (innerHTML : String)
deriving DecidableEq

/-- The template literal of lines 134-137 (`pad = 20`) and of lines 158-161 (`pad = 8`): a
line break, the two spans on lines of their own, indented by `pad` blanks, and the closing
line indented by `pad - 4` blanks. -/
def logItemMarkup (pad : Nat) (message time : String) : String :=
  "\n" ++ String.mk (List.replicate pad ' ') ++ "<span class=\"log-message\">" ++ message
    ++ "</span>\n" ++ String.mk (List.replicate pad ' ') ++ "<span class=\"log-time\">" ++ time
    ++ "</span>\n" ++ String.mk (List.replicate (pad - 4) ' ')

/-- Whether `querySelector('.log-empty')` finds an element in this child of `logContainer`:
the placeholder itself, or an element inside a log item.  `inMarkup` stands for the HTML
parser of the browser: whether a text, assigned to the `innerHTML` of a `div`, gives the `div`
a descendant of class `log-empty`. -/
def LogChild.holdsLogEmpty (inMarkup : String → Bool) : LogChild → Bool
  | .empty => true
  | .item innerHTML => inMarkup innerHTML

/-- One entry of the list served by `/api/logs`. -/
structure LogEntry where
  message : String
  time : String
deriving DecidableEq

/-- The element `lightStatus` or `fanStatus`. -/
structure StatusElement where
  textContent : String
  color : String
  /-- Whether the class `on` is set. -/
  classOn : Bool
  /-- Whether the class `off` is set. -/
  classOff : Bool
deriving DecidableEq

/-- The parts of the page the script writes. -/
structure Dashboard where
  statusDotConnected : Bool
  statusText : String
  lightStatus : StatusElement
  fanStatus : StatusElement
  gasValueText : String
  gasValueColor : String
  /-- Width of the gas bar, in percent. -/
  gasFillWidth : ℚ
  motionText : String
  motionColor : String
  gestureText : String
  gestureColor : String
  logContainer : List LogChild
  /-- The texts of the `alert` calls so far. -/
  alerts : List String
deriving DecidableEq

/-- What `updateDeviceStatus` writes into the status element (lines 77-87). -/
def shownStatus (state : String) : StatusElement :=
  if state = "ON" then
    { textContent := state, color := "#44ff44", classOn := true, classOff := false }
  else
    { textContent := state, color := "#ff4444", classOn := false, classOff := true }

/-- The function `updateDeviceStatus` (lines 75-88).  The page has the elements `lightStatus`
and `fanStatus`; for another device `getElementById` gives `null` and line 77 raises. -/
def updateDeviceStatus (ui : Dashboard) (device : String) (state : String) :
    Except String Dashboard :=
  if device = "light" then .ok { ui with lightStatus := shownStatus state }
  else if device = "fan" then .ok { ui with fanStatus := shownStatus state }
  else .error "TypeError: Cannot set properties of null (setting textContent)"

/-- The status object served by `/api/status`. -/
structure StatusSnapshot where
  esp_connected : Bool
  light : String
  fan : String
  gas_value : Int
  motion : Bool
  last_gesture : Option String

/-- Lines 12-22 of `updateStatus`: the connection indicator. -/
def updateConnection (ui : Dashboard) (esp_connected : Bool) : Dashboard :=
  if esp_connected then { ui with statusDotConnected := true, statusText := "Connected" }
  else { ui with statusDotConnected := false, statusText := "Disconnected" }

/-- Lines 28-44 of `updateStatus`: the gas text, the bar width and the colour. -/
def updateGas (ui : Dashboard) (gas_value : Int) : Dashboard :=
  let gasPercent : ℚ := min (((gas_value : ℚ) / 1000) * 100) 100
  let ui := { ui with gasValueText := toString gas_value, gasFillWidth := gasPercent }
  if gas_value > 300 then { ui with gasValueColor := "#ff4444" }
  else if gas_value > 150 then { ui with gasValueColor := "#ffaa00" }
  else { ui with gasValueColor := "#44ff44" }

/-- Lines 46-54 of `updateStatus`: the motion text. -/
def updateMotion (ui : Dashboard) (motion : Bool) : Dashboard :=
  if motion then { ui with motionText := "Motion Detected", motionColor := "#ff4444" }
  else { ui with motionText := "No Motion", motionColor := "#44ff44" }

/-- Lines 56-64 of `updateStatus`: the last gesture. -/
def updateLastGesture (ui : Dashboard) (last_gesture : Option String) : Dashboard :=
  if truthy last_gesture then
    { ui with gestureText := formatGesture (last_gesture.getD ""), gestureColor := "#667eea" }
  else { ui with gestureText := "None", gestureColor := "#999" }

/-- The success callback of `updateStatus` (lines 11-65). -/
def updateStatus (ui : Dashboard) (data : StatusSnapshot) : Except String Dashboard := do
  let ui := updateConnection ui data.esp_connected
  let ui ← updateDeviceStatus ui "light" data.light
  let ui ← updateDeviceStatus ui "fan" data.fan
  let ui := updateGas ui data.gas_value
  let ui := updateMotion ui data.motion
  return updateLastGesture ui data.last_gesture

/-- The loop of lines 165-167: remove the last child while there are more than 50. -/
def limitLogItems (children : List LogChild) : List LogChild :=
  if 50 < children.length then limitLogItems children.dropLast else children
termination_by children.length
decreasing_by simp; omega

/-- The function `addLogToUI` (lines 146-168) on the children of `logContainer`;
`timestamp` is the value of `new Date().toLocaleString()`.  The test of lines 151-154 looks
for an element of class `log-empty` anywhere under `logContainer` and, when there is one,
removes every child. -/
def addLogToUI (inMarkup : String → Bool) (children : List LogChild) (message : String)
    (timestamp : String) : List LogChild :=
  let children := if children.any (LogChild.holdsLogEmpty inMarkup) then [] else children
  limitLogItems (LogChild.item (logItemMarkup 8 message timestamp) :: children)

/-- The function `updateLog` (lines 119-144) on the children of `logContainer`: `some logs`
is the fetched list, `none` a failed fetch. -/
def updateLog (children : List LogChild) (fetched : Option (List LogEntry)) : List LogChild :=
  match fetched with
  | some logs =>
    if logs.length = 0 then [LogChild.empty]
    else logs.map (fun log => LogChild.item (logItemMarkup 20 log.message log.time))
  | none => children

/-- The two operations on the displayed log. -/
inductive LogOp where
  | refresh (fetched : Option (List LogEntry))
  | prepend (message : String) (timestamp : String)

/-- A sequence of log operations, in order. -/
def applyLogOps (inMarkup : String → Bool) (children : List LogChild) :
    List LogOp → List LogChild
  | [] => children
  | .refresh fetched :: ops => applyLogOps inMarkup (updateLog children fetched) ops
  | .prepend message timestamp :: ops =>
    applyLogOps inMarkup (addLogToUI inMarkup children message timestamp) ops

/-- The method `toUpperCase` on the ASCII strings the script applies it to. -/
def toUpperCase (s : String) : String :=
  String.mk (s.data.map Char.toUpper)

/-- The expression `device.charAt(0).toUpperCase() + device.slice(1)` of line 107. -/
def capitalize (s : String) : String :=
  match s.data with
  | [] => ""
  | c :: cs => String.mk (c.toUpper :: cs)

/-- How the call `fetch(...).then(response => response.json())` of `controlDevice` ends. -/
inductive ControlOutcome where
  /-- A JSON body with its `success` flag and optional `error` text. -/
  | response (success : Bool) (error : Option String)
  /-- The request was rejected or the body was not JSON. -/
  | failure

/-- The function `controlDevice` (lines 101-116) once the request has ended.  An exception in
the success callback is caught by the `catch` of line 112.  `inMarkup` is the HTML parser of
the browser, see `LogChild.holdsLogEmpty`. -/
def controlDevice (inMarkup : String → Bool) (ui : Dashboard) (device state : String)
    (outcome : ControlOutcome) (timestamp : String) : Dashboard :=
  match outcome with
  | .response true _ =>
    match updateDeviceStatus ui device (toUpperCase state) with
    | .ok ui1 =>
      let message := capitalize device ++ " turned " ++ toUpperCase state
      { ui1 with logContainer := addLogToUI inMarkup ui1.logContainer message timestamp }
    | .error _ => { ui with alerts := ui.alerts ++ ["Failed to control device. Check connection."] }
  | .response false error =>
    { ui with alerts := ui.alerts ++
        ["Failed to control device: " ++ (if truthy error then error.getD "" else "Unknown error")] }
  | .failure => { ui with alerts := ui.alerts ++ ["Failed to control device. Check connection."] }

/-! ## Sample inputs -/

/-- A frame whose landmarks have the given vertical coordinates. -/
def frameOfYs (ys : List ℚ) : List Landmark :=
  ys.map (fun y => { x := 0, y := y, z := 0 })

/-- A frame with one hand. -/
def oneHand (landmarks : List Landmark) : Results :=
  { multiHandLandmarks := some [landmarks] }

/-- A frame without a hand. -/
def noHand : Results :=
  { multiHandLandmarks := some [] }

/-- Thumb up, the four fingers folded. -/
def thumbsUp : List Landmark :=
  frameOfYs [5, 5, 5, 5, 4, 5, 5, 5, 6, 5, 5, 5, 6, 5, 5, 5, 6, 5, 5, 5, 6]

/-- All four fingers folded, thumb down. -/
def fist : List Landmark :=
  frameOfYs [5, 5, 5, 5, 6, 5, 5, 5, 6, 5, 5, 5, 6, 5, 5, 5, 6, 5, 5, 5, 6]

/-- All four fingers up. -/
def palm : List Landmark :=
  frameOfYs [5, 5, 5, 5, 6, 5, 5, 5, 4, 5, 5, 5, 4, 5, 5, 5, 4, 5, 5, 5, 4]

/-- Thumb up, index tip level with its knuckle, middle folded. -/
def thumbUpIndexLevel : List Landmark :=
  frameOfYs [5, 5, 5, 5, 4, 5, 5, 5, 5, 5, 5, 5, 6, 5, 5, 5, 6, 5, 5, 5, 6]

/-- A dashboard with both devices off and no log entry. -/
def Dashboard.blank : Dashboard :=
  { statusDotConnected := false, statusText := "",
    lightStatus := { textContent := "OFF", color := "#ff4444", classOn := false, classOff := true },
    fanStatus := { textContent := "OFF", color := "#ff4444", classOn := false, classOff := true },
    gasValueText := "0", gasValueColor := "#44ff44", gasFillWidth := 0,
    motionText := "No Motion", motionColor := "#44ff44",
    gestureText := "None", gestureColor := "#999",
    logContainer := [LogChild.empty], alerts := [] }

/-! ## Frame streams -/

/-- Further frames of a hold, each after a pause of the given number of milliseconds. -/
def gapFrames : List (Nat × Results) → List Event
  | [] => []
  | (gap, r) :: rest => .elapse gap :: .frame r :: gapFrames rest

/-- A hold: a first frame, then further frames, each after a pause. -/
def holdStream (first : Results) (rest : List (Nat × Results)) : List Event :=
  .frame first :: gapFrames rest

/-- One run of a label: it starts with a frame, every frame in it carries the label, and it
lasts (up to the first frame of the next run) less than 500 ms. -/
def IsRunOf (label : String) (es : List Event) : Prop :=
  (∃ r rest, es = Event.frame r :: rest) ∧
  (∀ r, Event.frame r ∈ es → observedGesture r = .ok (some label)) ∧
  elapsed es < 500

/-- Runs that alternate between two labels, the first run being of the first label. -/
def Alternates (a b : String) : List (List Event) → Prop
  | [] => True
  | es :: runs => IsRunOf a es ∧ Alternates b a runs

/-- The event stream made of the given runs, one after the other. -/
def streamOf : List (List Event) → List Event
  | [] => []
  | es :: runs => es ++ streamOf runs

/-! ## Helpers for stating the dashboard properties -/

/-- The element `getElementById(device + "Status")`, when the page has it. -/
def Dashboard.statusElement (ui : Dashboard) (device : String) : Option StatusElement :=
  if device = "light" then some ui.lightStatus
  else if device = "fan" then some ui.fanStatus
  else none

/-- A string with its ASCII letters in lower case, to compare texts without regard to case. -/
def lowerCased (s : String) : String :=
  String.mk (s.data.map Char.toLower)

/-- A status object with the given gas reading. -/
def statusWithGas (v : Int) : StatusSnapshot :=
  { esp_connected := true, light := "OFF", fan := "OFF", gas_value := v, motion := false,
    last_gesture := none }

/-- A parser for texts without markup: no text holds an element of class `log-empty`. -/
def plainText : String → Bool :=
  fun _ => false

/-- A fetched list of `n` entries. -/
def fetchedLogs (n : Nat) : List LogEntry :=
  (List.range n).map (fun i => { message := "event " ++ toString i, time := "12:00:00" })

/-! # Theorems -/

/-! ## The classifier -/

theorem landmarkY_of_lt (landmarks : List Landmark) (i : Nat) (h : i < landmarks.length) :
    landmarkY landmarks i = .ok landmarks[i].y := by
  simp [landmarkY, List.getElem?_eq_getElem h]

/-- With all ten landmarks present the classifier is the cascade of its four tests. -/
theorem detect_of_length (landmarks : List Landmark) (h : landmarks.length = 21) :
    detectGestureFromLandmarks landmarks = .ok (
      if landmarks[4].y < landmarks[3].y ∧ landmarks[8].y > landmarks[5].y
          ∧ landmarks[12].y > landmarks[9].y then some "fan_on"
      else if landmarks[8].y < landmarks[5].y ∧ landmarks[12].y < landmarks[9].y
          ∧ landmarks[16].y > landmarks[13].y ∧ landmarks[20].y > landmarks[17].y then some "light_on"
      else if landmarks[8].y < landmarks[5].y ∧ landmarks[12].y < landmarks[9].y
          ∧ landmarks[16].y < landmarks[13].y ∧ landmarks[20].y < landmarks[17].y then some "fan_off"
      else if landmarks[8].y > landmarks[5].y ∧ landmarks[12].y > landmarks[9].y
          ∧ landmarks[16].y > landmarks[13].y ∧ landmarks[20].y > landmarks[17].y then some "light_off"
      else none) := by
  unfold detectGestureFromLandmarks
  rw [landmarkY_of_lt landmarks 4 (by omega), landmarkY_of_lt landmarks 3 (by omega),
    landmarkY_of_lt landmarks 8 (by omega), landmarkY_of_lt landmarks 5 (by omega),
    landmarkY_of_lt landmarks 12 (by omega), landmarkY_of_lt landmarks 9 (by omega),
    landmarkY_of_lt landmarks 16 (by omega), landmarkY_of_lt landmarks 13 (by omega),
    landmarkY_of_lt landmarks 20 (by omega), landmarkY_of_lt landmarks 17 (by omega)]
  simp only [bind, Except.bind, pure, Except.pure]
  split_ifs <;> rfl

/-- The classifier only ever returns one of the four labels or `null`. -/
theorem detect_label (landmarks : List Landmark) (g : String)
    (h : detectGestureFromLandmarks landmarks = .ok (some g)) :
    g = "fan_on" ∨ g = "fan_off" ∨ g = "light_on" ∨ g = "light_off" := by
  unfold detectGestureFromLandmarks at h
  simp only [bind, Except.bind, pure, Except.pure] at h
  repeat' split at h
  all_goals first
    | (simp only [Except.ok.injEq, Option.some.injEq] at h; subst h; simp)
    | simp at h

/-- C1 (as amended): thumb tip above its joint, index and middle tips strictly below their
knuckles: the classifier returns fan_on, whatever the ring and pinky coordinates are. -/
theorem fan_on_of_thumb_up_index_middle_below (landmarks : List Landmark)
    (h : landmarks.length = 21)
    (hThumb : landmarks[4].y < landmarks[3].y)
    (hIndex : landmarks[8].y > landmarks[5].y)
    (hMiddle : landmarks[12].y > landmarks[9].y) :
    detectGestureFromLandmarks landmarks = .ok (some "fan_on") := by
  rw [detect_of_length landmarks h, if_pos ⟨hThumb, hIndex, hMiddle⟩]

theorem fan_on_of_thumb_up_index_middle_below_witness :
    detectGestureFromLandmarks thumbsUp = .ok (some "fan_on") :=
  fan_on_of_thumb_up_index_middle_below thumbsUp (by decide) (by decide) (by decide) (by decide)

/-- C1 (as stated) fails: in the frame `thumbUpIndexLevel` the thumb is extended and the index
and middle fingers are not extended (the index tip is level with its knuckle), and the
classifier returns `null`, not fan_on. -/
theorem fan_on_fails_when_tip_level_with_knuckle :
    detectGestureFromLandmarks thumbUpIndexLevel = .ok none ∧
    ¬ ∀ (landmarks : List Landmark) (h : landmarks.length = 21),
        landmarks[4].y < landmarks[3].y → ¬ landmarks[8].y < landmarks[5].y →
        ¬ landmarks[12].y < landmarks[9].y →
        detectGestureFromLandmarks landmarks = .ok (some "fan_on") := by
  refine ⟨rfl, fun H => ?_⟩
  have h1 := H thumbUpIndexLevel (by decide) (by decide) (by decide) (by decide)
  have h2 : detectGestureFromLandmarks thumbUpIndexLevel = .ok none := rfl
  rw [h2] at h1
  exact absurd h1 (by simp)

/-- C10: on a frame of 21 points the classifier returns, without raising, exactly one outcome,
which is fan_on, fan_off, light_on, light_off or `null`; equal frames give equal outcomes. -/
theorem detect_total_deterministic (landmarks : List Landmark) (h : landmarks.length = 21) :
    (∃! g, detectGestureFromLandmarks landmarks = .ok g ∧
      (g = some "fan_on" ∨ g = some "fan_off" ∨ g = some "light_on" ∨ g = some "light_off"
        ∨ g = none)) ∧
    ∀ other : List Landmark, other = landmarks →
      detectGestureFromLandmarks other = detectGestureFromLandmarks landmarks := by
  refine ⟨?_, fun other ho => by rw [ho]⟩
  rw [detect_of_length landmarks h]
  split_ifs
  all_goals
    refine ⟨_, ⟨rfl, by simp⟩, ?_⟩
    rintro g ⟨hg, -⟩
    exact (Except.ok.inj hg).symm

theorem detect_total_deterministic_witness :
    (∃! g, detectGestureFromLandmarks palm = .ok g ∧
      (g = some "fan_on" ∨ g = some "fan_off" ∨ g = some "light_on" ∨ g = some "light_off"
        ∨ g = none)) ∧
    ∀ other : List Landmark, other = palm →
      detectGestureFromLandmarks other = detectGestureFromLandmarks palm :=
  detect_total_deterministic palm (by decide)

/-! ## One event of the debounce -/

/-- A label the classifier returns is not the empty string. -/
theorem truthy_of_detect (landmarks : List Landmark) (g : String)
    (h : detectGestureFromLandmarks landmarks = .ok (some g)) : truthy (some g) = true := by
  rcases detect_label landmarks g h with rfl | rfl | rfl | rfl <;> decide

/-- A frame never sends by itself and never changes `lastGestureSent`; it either carries a label
different from `lastGestureSent` and then sets a timer of 1000 ms for that label, or it leaves
the timer as it is. -/
theorem step_frame_cases (s : GestureState) (r : Results) :
    (step s (.frame r)).2 = [] ∧
    (step s (.frame r)).1.lastGestureSent = s.lastGestureSent ∧
    ((∃ g, observedGesture r = .ok (some g) ∧ some g ≠ s.lastGestureSent ∧
        (step s (.frame r)).1.gestureDebounce = some { remaining := 1000, gesture := g }) ∨
     ((∀ g, observedGesture r = .ok (some g) → some g = s.lastGestureSent) ∧
        (step s (.frame r)).1.gestureDebounce = s.gestureDebounce)) := by
  rcases r with ⟨_ | _ | ⟨landmarks, hands⟩⟩
  · simp [step, onHandResults, observedGesture, pure, Except.pure]
  · simp [step, onHandResults, observedGesture, pure, Except.pure]
  · cases hd : detectGestureFromLandmarks landmarks with
    | error e => simp [step, onHandResults, observedGesture, hd, bind, Except.bind]
    | ok gesture =>
      cases gesture with
      | none => simp [step, onHandResults, observedGesture, hd, bind, Except.bind, pure, Except.pure]
      | some g =>
        have ht := truthy_of_detect landmarks g hd
        by_cases hg : some g = s.lastGestureSent
        · simp [step, onHandResults, observedGesture, hd, bind, Except.bind, pure, Except.pure,
            ht, hg]
          simp [← hg, ht]
        · simp [step, onHandResults, observedGesture, hd, bind, Except.bind, pure, Except.pure,
            ht, hg]

/-- A frame carrying a label other than `lastGestureSent` restarts the timer at 1000 ms. -/
theorem step_frame_arm (s : GestureState) (r : Results) (g : String)
    (hr : observedGesture r = .ok (some g)) (hg : some g ≠ s.lastGestureSent) :
    (step s (.frame r)).2 = [] ∧
    (step s (.frame r)).1.lastGestureSent = s.lastGestureSent ∧
    (step s (.frame r)).1.gestureDebounce = some { remaining := 1000, gesture := g } := by
  obtain ⟨h1, h2, h3⟩ := step_frame_cases s r
  refine ⟨h1, h2, ?_⟩
  rcases h3 with ⟨g', hr', -, h⟩ | ⟨hq, -⟩
  · rw [hr] at hr'
    simp only [Except.ok.injEq, Option.some.injEq] at hr'
    rw [h, hr']
  · exact absurd (hq g hr) hg

/-- A frame that carries no label, or the label in `lastGestureSent`, or on which the
classifier raises, leaves the timer and `lastGestureSent` as they are. -/
theorem step_frame_quiet (s : GestureState) (r : Results)
    (hq : ∀ g, observedGesture r = .ok (some g) → some g = s.lastGestureSent) :
    (step s (.frame r)).2 = [] ∧
    (step s (.frame r)).1.lastGestureSent = s.lastGestureSent ∧
    (step s (.frame r)).1.gestureDebounce = s.gestureDebounce := by
  obtain ⟨h1, h2, h3⟩ := step_frame_cases s r
  refine ⟨h1, h2, ?_⟩
  rcases h3 with ⟨g, hr, hg, -⟩ | ⟨-, h⟩
  · exact absurd (hq g hr) hg
  · exact h

/-- Time passing short of the deadline sends nothing and leaves the rest of the timer. -/
theorem step_elapse_lt (s : GestureState) (t : Timer) (ms : Nat)
    (ht : s.gestureDebounce = some t) (hms : ms < t.remaining) :
    (step s (.elapse ms)).2 = [] ∧
    (step s (.elapse ms)).1.lastGestureSent = s.lastGestureSent ∧
    (step s (.elapse ms)).1.gestureDebounce =
      some { remaining := t.remaining - ms, gesture := t.gesture } := by
  simp [step, ht, Nat.not_le.mpr hms]

/-- Time passing up to the deadline runs the callback: one send, of the gesture of the timer. -/
theorem step_elapse_fire (s : GestureState) (t : Timer) (ms : Nat)
    (ht : s.gestureDebounce = some t) (hms : t.remaining ≤ ms) :
    (step s (.elapse ms)).2 = [t.gesture] ∧
    (step s (.elapse ms)).1.lastGestureSent = some t.gesture ∧
    (step s (.elapse ms)).1.gestureDebounce = none := by
  simp [step, ht, hms, timerCallback]

/-- Without a timer, time passing changes nothing. -/
theorem step_elapse_idle (s : GestureState) (ms : Nat) (ht : s.gestureDebounce = none) :
    step s (.elapse ms) = (s, []) := by
  simp [step, ht]

theorem run_nil (s : GestureState) : run s [] = (s, []) := rfl

theorem run_cons (s : GestureState) (e : Event) (es : List Event) :
    run s (e :: es) = ((run (step s e).1 es).1, (step s e).2 ++ (run (step s e).1 es).2) := rfl

theorem run_append (s : GestureState) (es fs : List Event) :
    run s (es ++ fs) = ((run (run s es).1 fs).1, (run s es).2 ++ (run (run s es).1 fs).2) := by
  induction es generalizing s with
  | nil => simp [run_nil]
  | cons e es ih => simp [run_cons, ih, List.append_assoc]

theorem run_single (s : GestureState) (e : Event) : run s [e] = step s e := by
  simp [run_cons, run_nil]

theorem elapsed_append (es fs : List Event) : elapsed (es ++ fs) = elapsed es + elapsed fs := by
  induction es with
  | nil => simp [elapsed]
  | cons e es ih => cases e <;> simp [elapsed, ih, Nat.add_assoc]

/-- While less time passes than any pending timer has left, nothing is sent: with a margin of
`k` ms at the start (a new timer has 1000 ms), at least `k` ms are left at the end. -/
theorem run_no_fire (k : Nat) (hk : 1 ≤ k) (es : List Event) (s : GestureState)
    (hlim : elapsed es + k ≤ 1000)
    (ht : ∀ t, s.gestureDebounce = some t → elapsed es + k ≤ t.remaining) :
    (run s es).2 = [] ∧ (run s es).1.lastGestureSent = s.lastGestureSent ∧
    ∀ t, (run s es).1.gestureDebounce = some t → k ≤ t.remaining := by
  induction es generalizing s with
  | nil =>
    refine ⟨rfl, rfl, fun t h => ?_⟩
    have := ht t h
    simp only [elapsed] at this
    omega
  | cons e es ih =>
    rw [run_cons]
    cases e with
    | frame r =>
      simp only [elapsed] at hlim ht
      obtain ⟨h1, h2, h3⟩ := step_frame_cases s r
      have hnext : ∀ t, (step s (.frame r)).1.gestureDebounce = some t →
          elapsed es + k ≤ t.remaining := by
        intro t h
        rcases h3 with ⟨g, -, -, hg⟩ | ⟨-, hg⟩
        · rw [hg] at h
          cases h
          exact hlim
        · rw [hg] at h
          exact ht t h
      obtain ⟨i1, i2, i3⟩ := ih (step s (.frame r)).1 hlim hnext
      exact ⟨by simp [h1, i1], by rw [i2, h2], i3⟩
    | elapse ms =>
      simp only [elapsed] at hlim ht
      cases hd : s.gestureDebounce with
      | none =>
        rw [step_elapse_idle s ms hd]
        have hnext : ∀ t, s.gestureDebounce = some t → elapsed es + k ≤ t.remaining := by
          intro t h
          rw [hd] at h
          cases h
        obtain ⟨i1, i2, i3⟩ := ih s (by omega) hnext
        exact ⟨by simp [i1], i2, i3⟩
      | some t =>
        have hrem := ht t hd
        obtain ⟨h1, h2, h3⟩ := step_elapse_lt s t ms hd (by omega)
        have hnext : ∀ t', (step s (.elapse ms)).1.gestureDebounce = some t' →
            elapsed es + k ≤ t'.remaining := by
          intro t' h
          rw [h3] at h
          cases h
          show elapsed es + k ≤ t.remaining - ms
          omega
        obtain ⟨i1, i2, i3⟩ := ih (step s (.elapse ms)).1 (by omega) hnext
        exact ⟨by simp [h1, i1], by rw [i2, h2], i3⟩

/-- With no timer pending, frames that carry no label other than the last sent one never set
a timer: nothing is sent and `lastGestureSent` stays. -/
theorem run_quiet (L : String) (es : List Event) (s : GestureState)
    (ht : s.gestureDebounce = none) (hl : s.lastGestureSent = some L)
    (hes : ∀ r, Event.frame r ∈ es → ∀ M, observedGesture r = .ok (some M) → M = L) :
    (run s es).2 = [] ∧ (run s es).1.lastGestureSent = some L ∧
      (run s es).1.gestureDebounce = none := by
  induction es generalizing s with
  | nil => exact ⟨rfl, hl, ht⟩
  | cons e es ih =>
    rw [run_cons]
    have hes' : ∀ r, Event.frame r ∈ es → ∀ M, observedGesture r = .ok (some M) → M = L :=
      fun r hr => hes r (List.mem_cons_of_mem _ hr)
    cases e with
    | frame r =>
      obtain ⟨q1, q2, q3⟩ := step_frame_quiet s r (by
        intro g hg
        rw [hl, hes r (List.mem_cons_self _ _) g hg])
      obtain ⟨i1, i2, i3⟩ := ih (step s (.frame r)).1 (by rw [q3, ht]) (by rw [q2, hl]) hes'
      exact ⟨by simp [q1, i1], i2, i3⟩
    | elapse ms =>
      rw [step_elapse_idle s ms ht]
      obtain ⟨i1, i2, i3⟩ := ih s ht hl hes'
      exact ⟨by simp [i1], i2, i3⟩

/-- With a timer pending, frames that carry no label or the last sent label leave the timer
running: while less time passes than it has left, nothing is sent. -/
theorem run_quiet_pending (es : List Event) (s : GestureState) (t : Timer)
    (ht : s.gestureDebounce = some t)
    (hq : ∀ r, Event.frame r ∈ es → ∀ M, observedGesture r = .ok (some M) →
      some M = s.lastGestureSent)
    (htime : elapsed es < t.remaining) :
    (run s es).2 = [] ∧ (run s es).1.lastGestureSent = s.lastGestureSent ∧
    (run s es).1.gestureDebounce
      = some { remaining := t.remaining - elapsed es, gesture := t.gesture } := by
  induction es generalizing s t with
  | nil => exact ⟨rfl, rfl, by rw [run_nil, ht]; rfl⟩
  | cons e es ih =>
    rw [run_cons]
    cases e with
    | frame r =>
      simp only [elapsed] at htime ⊢
      obtain ⟨q1, q2, q3⟩ := step_frame_quiet s r (hq r (List.mem_cons_self _ _))
      obtain ⟨i1, i2, i3⟩ := ih (step s (.frame r)).1 t (by rw [q3, ht])
        (fun r' hr' M hM => by rw [q2]; exact hq r' (List.mem_cons_of_mem _ hr') M hM) htime
      exact ⟨by simp [q1, i1], by rw [i2, q2], i3⟩
    | elapse ms =>
      simp only [elapsed] at htime ⊢
      obtain ⟨e1, e2, e3⟩ := step_elapse_lt s t ms ht (by omega)
      obtain ⟨i1, i2, i3⟩ := ih (step s (.elapse ms)).1
        { remaining := t.remaining - ms, gesture := t.gesture } e3
        (fun r' hr' M hM => by rw [e2]; exact hq r' (List.mem_cons_of_mem _ hr') M hM)
        (by show elapsed es < t.remaining - ms; omega)
      refine ⟨by simp [e1, i1], by rw [i2, e2], ?_⟩
      rw [i3]
      show some (Timer.mk (t.remaining - ms - elapsed es) t.gesture) = _
      rw [Nat.sub_sub]

/-- With a timer pending, a stretch of frames without a label that lasts at least as long as
the timer has left sends exactly the gesture of the timer. -/
theorem run_unlabelled_fires (es : List Event) (s : GestureState) (t : Timer)
    (ht : s.gestureDebounce = some t)
    (hq : ∀ r, Event.frame r ∈ es → observedGesture r = .ok none)
    (hpos : 1 ≤ t.remaining) (htime : t.remaining ≤ elapsed es) :
    (run s es).2 = [t.gesture] ∧ (run s es).1.lastGestureSent = some t.gesture ∧
    (run s es).1.gestureDebounce = none := by
  induction es generalizing s t with
  | nil =>
    simp only [elapsed] at htime
    omega
  | cons e es ih =>
    rw [run_cons]
    cases e with
    | frame r =>
      simp only [elapsed] at htime
      have hr := hq r (List.mem_cons_self _ _)
      obtain ⟨q1, q2, q3⟩ := step_frame_quiet s r (by intro g hg; rw [hr] at hg; cases hg)
      obtain ⟨i1, i2, i3⟩ := ih (step s (.frame r)).1 t (by rw [q3, ht])
        (fun r' hr' => hq r' (List.mem_cons_of_mem _ hr')) hpos htime
      exact ⟨by simp [q1, i1], i2, i3⟩
    | elapse ms =>
      simp only [elapsed] at htime
      by_cases hms : t.remaining ≤ ms
      · obtain ⟨e1, e2, e3⟩ := step_elapse_fire s t ms ht hms
        obtain ⟨i1, i2, i3⟩ := run_quiet t.gesture es (step s (.elapse ms)).1 e3 e2
          (fun r' hr' M hM => by
            rw [hq r' (List.mem_cons_of_mem _ hr')] at hM
            cases hM)
        exact ⟨by simp [e1, i1], i2, i3⟩
      · obtain ⟨e1, e2, e3⟩ := step_elapse_lt s t ms ht (Nat.lt_of_not_le hms)
        obtain ⟨i1, i2, i3⟩ := ih (step s (.elapse ms)).1
          { remaining := t.remaining - ms, gesture := t.gesture } e3
          (fun r' hr' => hq r' (List.mem_cons_of_mem _ hr'))
          (by show 1 ≤ t.remaining - ms; omega)
          (by show t.remaining - ms ≤ elapsed es; omega)
        exact ⟨by simp [e1, i1], i2, i3⟩

/-! ## Holding one label (C2) -/

/-- Sample frames and the labels they carry. -/
theorem observed_thumbsUp : observedGesture (oneHand thumbsUp) = .ok (some "fan_on") := rfl

theorem observed_fist : observedGesture (oneHand fist) = .ok (some "light_off") := rfl

theorem observed_palm : observedGesture (oneHand palm) = .ok (some "fan_off") := rfl

theorem observed_noHand : observedGesture noHand = .ok none := rfl

/-- Frames of a held label, less than 1000 ms apart, keep the timer at its full 1000 ms. -/
theorem run_gapFrames (L : String) (rest : List (Nat × Results)) (s : GestureState)
    (hL : some L ≠ s.lastGestureSent)
    (ht : s.gestureDebounce = some { remaining := 1000, gesture := L })
    (hrest : ∀ p ∈ rest, p.1 < 1000 ∧ observedGesture p.2 = .ok (some L)) :
    (run s (gapFrames rest)).2 = [] ∧
    (run s (gapFrames rest)).1.lastGestureSent = s.lastGestureSent ∧
    (run s (gapFrames rest)).1.gestureDebounce = some { remaining := 1000, gesture := L } := by
  induction rest generalizing s with
  | nil => exact ⟨rfl, rfl, ht⟩
  | cons p rest ih =>
    obtain ⟨gap, r⟩ := p
    obtain ⟨hgap, hr⟩ := hrest (gap, r) (List.mem_cons_self _ _)
    obtain ⟨e1, e2, e3⟩ := step_elapse_lt s _ gap ht hgap
    obtain ⟨f1, f2, f3⟩ := step_frame_arm (step s (.elapse gap)).1 r L hr (by rw [e2]; exact hL)
    obtain ⟨i1, i2, i3⟩ := ih (step (step s (.elapse gap)).1 (.frame r)).1
      (by rw [f2, e2]; exact hL) f3 (fun q hq => hrest q (List.mem_cons_of_mem _ hq))
    simp only [gapFrames, run_cons]
    exact ⟨by simp [e1, f1, i1], by rw [i2, f2, e2], i3⟩

/-- C2 (as amended): for every state and every stream of frames that all carry the same label
L, different from `lastGestureSent`, and arrive less than 1000 ms apart: every frame restarts
the timer, so nothing is sent while the frames keep arriving, however long the hold, and after
the last frame the timer has its full 1000 ms left.  Whatever frames without a label or with
the last sent label follow (they leave the timer running), nothing is sent before 1000 ms
have passed since the last frame of the hold, and when they have, exactly one gesture, L, is
sent and `lastGestureSent` becomes L. -/
theorem hold_confirms_after_last_frame (s : GestureState) (L : String) (first : Results)
    (rest : List (Nat × Results))
    (hL : some L ≠ s.lastGestureSent)
    (hfirst : observedGesture first = .ok (some L))
    (hrest : ∀ p ∈ rest, p.1 < 1000 ∧ observedGesture p.2 = .ok (some L)) :
    (run s (holdStream first rest)).2 = [] ∧
    (run s (holdStream first rest)).1.lastGestureSent = s.lastGestureSent ∧
    (run s (holdStream first rest)).1.gestureDebounce = some { remaining := 1000, gesture := L } ∧
    (∀ dt, dt < 1000 → (run s (holdStream first rest ++ [.elapse dt])).2 = []) ∧
    (∀ dt, 1000 ≤ dt →
      (run s (holdStream first rest ++ [.elapse dt])).2 = [L] ∧
      (run s (holdStream first rest ++ [.elapse dt])).1.lastGestureSent = some L ∧
      (run s (holdStream first rest ++ [.elapse dt])).1.gestureDebounce = none) ∧
    (∀ quiet : List Event,
      (∀ r, Event.frame r ∈ quiet → ∀ M, observedGesture r = .ok (some M) →
        some M = s.lastGestureSent) →
      elapsed quiet < 1000 →
      (run s (holdStream first rest ++ quiet)).2 = [] ∧
      (run s (holdStream first rest ++ quiet)).1.gestureDebounce
        = some { remaining := 1000 - elapsed quiet, gesture := L } ∧
      ∀ dt, 1000 ≤ elapsed quiet + dt →
        (run s (holdStream first rest ++ quiet ++ [.elapse dt])).2 = [L] ∧
        (run s (holdStream first rest ++ quiet ++ [.elapse dt])).1.lastGestureSent = some L ∧
        (run s (holdStream first rest ++ quiet ++ [.elapse dt])).1.gestureDebounce = none) ∧
    (∀ quiet : List Event,
      (∀ r, Event.frame r ∈ quiet → observedGesture r = .ok none) →
      1000 ≤ elapsed quiet →
      (run s (holdStream first rest ++ quiet)).2 = [L] ∧
      (run s (holdStream first rest ++ quiet)).1.lastGestureSent = some L) := by
  obtain ⟨f1, f2, f3⟩ := step_frame_arm s first L hfirst hL
  obtain ⟨g1, g2, g3⟩ := run_gapFrames L rest (step s (.frame first)).1
    (by rw [f2]; exact hL) f3 hrest
  have h1 : (run s (holdStream first rest)).2 = [] := by
    simp [holdStream, run_cons, f1, g1]
  have h2 : (run s (holdStream first rest)).1.lastGestureSent = s.lastGestureSent := by
    simp only [holdStream, run_cons]
    rw [g2, f2]
  have h3 : (run s (holdStream first rest)).1.gestureDebounce =
      some { remaining := 1000, gesture := L } := by
    simp only [holdStream, run_cons]
    exact g3
  refine ⟨h1, h2, h3, fun dt hdt => ?_, fun dt hdt => ?_, fun quiet hq htime => ?_,
    fun quiet hq htime => ?_⟩
  · obtain ⟨e1, -, -⟩ := step_elapse_lt _ _ dt h3 hdt
    rw [run_append, run_single]
    simp [h1, e1]
  · obtain ⟨e1, e2, e3⟩ := step_elapse_fire _ _ dt h3 hdt
    rw [run_append, run_single]
    exact ⟨by simp [h1, e1], e2, e3⟩
  · obtain ⟨q1, -, q3⟩ := run_quiet_pending quiet (run s (holdStream first rest)).1 _ h3
      (fun r hr M hM => by rw [h2]; exact hq r hr M hM) htime
    have hsent : (run s (holdStream first rest ++ quiet)).2 = [] := by
      rw [run_append]
      simp [h1, q1]
    have htimer : (run s (holdStream first rest ++ quiet)).1.gestureDebounce
        = some { remaining := 1000 - elapsed quiet, gesture := L } := by
      rw [run_append]
      exact q3
    refine ⟨hsent, htimer, fun dt hdt => ?_⟩
    obtain ⟨e1, e2, e3⟩ := step_elapse_fire _ _ dt htimer
      (by show 1000 - elapsed quiet ≤ dt; omega)
    rw [run_append, run_single]
    exact ⟨by simp [hsent, e1], e2, e3⟩
  · obtain ⟨u1, u2, -⟩ := run_unlabelled_fires quiet (run s (holdStream first rest)).1 _ h3 hq
      (by show 1 ≤ 1000; omega) htime
    rw [run_append]
    exact ⟨by simp [h1, u1], u2⟩

theorem hold_confirms_after_last_frame_witness :
    (run { lastGestureSent := some "light_off", gestureDebounce := none, detectedGesture := "" }
      (holdStream (oneHand thumbsUp) [(400, oneHand thumbsUp), (999, oneHand thumbsUp)])).2
      = [] ∧
    (run { lastGestureSent := some "light_off", gestureDebounce := none, detectedGesture := "" }
      (holdStream (oneHand thumbsUp) [(400, oneHand thumbsUp), (999, oneHand thumbsUp)]
        ++ [.elapse 1000])).2 = ["fan_on"] ∧
    (run { lastGestureSent := some "light_off", gestureDebounce := none, detectedGesture := "" }
      (holdStream (oneHand thumbsUp) [(400, oneHand thumbsUp), (999, oneHand thumbsUp)]
        ++ [.elapse 400, .frame noHand, .elapse 300, .frame (oneHand fist)]
        ++ [.elapse 300])).2 = ["fan_on"] :=
  have h := hold_confirms_after_last_frame
    { lastGestureSent := some "light_off", gestureDebounce := none, detectedGesture := "" }
    "fan_on" (oneHand thumbsUp)
    [(400, oneHand thumbsUp), (999, oneHand thumbsUp)] (by decide) observed_thumbsUp
    (by
      intro p hp
      simp only [List.mem_cons, List.mem_singleton, List.not_mem_nil, or_false] at hp
      rcases hp with rfl | rfl
      · exact ⟨by decide, observed_thumbsUp⟩
      · exact ⟨by decide, observed_thumbsUp⟩)
  ⟨h.1, (h.2.2.2.2.1 1000 (Nat.le_refl 1000)).1,
    ((h.2.2.2.2.2.1 [.elapse 400, .frame noHand, .elapse 300, .frame (oneHand fist)]
      (by
        intro r hr M hM
        simp only [List.mem_cons, Event.frame.injEq, List.mem_singleton, List.not_mem_nil,
          or_false, false_or, reduceCtorEq] at hr
        rcases hr with rfl | rfl
        · rw [observed_noHand] at hM
          cases hM
        · rw [observed_fist] at hM
          simp only [Except.ok.injEq, Option.some.injEq] at hM
          rw [← hM])
      (by decide)).2.2 300 (by decide)).1⟩

/-- C2 (as stated) fails: from the initial state the label fan_on is carried by every frame of
a hold of 1200 ms with frames 400 ms apart; nothing has been sent by the end of the hold
(the claim has one confirmation 1000 ms after the first frame) and the timer again has its full
1000 ms left; and a frame carrying the label of a timer that has 600 ms left restarts it. -/
theorem hold_of_1200ms_sends_nothing :
    elapsed (holdStream (oneHand thumbsUp)
      [(400, oneHand thumbsUp), (400, oneHand thumbsUp), (400, oneHand thumbsUp)]) = 1200 ∧
    (run GestureState.init (holdStream (oneHand thumbsUp)
      [(400, oneHand thumbsUp), (400, oneHand thumbsUp), (400, oneHand thumbsUp)])).2 = [] ∧
    (run GestureState.init (holdStream (oneHand thumbsUp)
      [(400, oneHand thumbsUp), (400, oneHand thumbsUp), (400, oneHand thumbsUp)])).1.gestureDebounce
      = some { remaining := 1000, gesture := "fan_on" } ∧
    (step { lastGestureSent := none,
            gestureDebounce := some { remaining := 600, gesture := "fan_on" },
            detectedGesture := "" } (.frame (oneHand thumbsUp))).1.gestureDebounce
      = some { remaining := 1000, gesture := "fan_on" } := by
  refine ⟨rfl, rfl, rfl, rfl⟩

/-! ## Frames without a label (C3) -/

/-- C3 (as amended): for every state with a pending timer for L, a frame without a label (no
hand, or no recognised pose) sends nothing and leaves the timer and `lastGestureSent` as they
are, so L is still sent when the rest of the delay has passed; a later frame carrying L (L
not being the last sent label) sets the timer to the full 1000 ms. -/
theorem none_frame_keeps_timer (s : GestureState) (t : Timer) (r : Results)
    (ht : s.gestureDebounce = some t) (hr : observedGesture r = .ok none) :
    (step s (.frame r)).2 = [] ∧
    (step s (.frame r)).1.gestureDebounce = some t ∧
    (step s (.frame r)).1.lastGestureSent = s.lastGestureSent ∧
    (∀ dt, t.remaining ≤ dt → (step (step s (.frame r)).1 (.elapse dt)).2 = [t.gesture]) ∧
    (∀ r', observedGesture r' = .ok (some t.gesture) → some t.gesture ≠ s.lastGestureSent →
      (step (step s (.frame r)).1 (.frame r')).1.gestureDebounce
        = some { remaining := 1000, gesture := t.gesture }) := by
  obtain ⟨q1, q2, q3⟩ := step_frame_quiet s r (by intro g hg; rw [hr] at hg; cases hg)
  rw [ht] at q3
  refine ⟨q1, q3, q2, fun dt hdt => ?_, fun r' hr' hne => ?_⟩
  · exact (step_elapse_fire _ t dt q3 hdt).1
  · exact (step_frame_arm _ r' t.gesture hr' (by rw [q2]; exact hne)).2.2

theorem none_frame_keeps_timer_witness :
    (step { lastGestureSent := none,
            gestureDebounce := some { remaining := 300, gesture := "fan_on" },
            detectedGesture := "" } (.frame noHand)).1.gestureDebounce
      = some { remaining := 300, gesture := "fan_on" } :=
  (none_frame_keeps_timer
    { lastGestureSent := none, gestureDebounce := some { remaining := 300, gesture := "fan_on" },
      detectedGesture := "" }
    { remaining := 300, gesture := "fan_on" } noHand rfl observed_noHand).2.1

/-- C3 (as stated) fails: with a timer for fan_on that has 500 ms left, a frame without a hand
does not cancel the timer, and fan_on is sent 500 ms later without having been seen again. -/
theorem none_frame_does_not_cancel :
    observedGesture noHand = .ok none ∧
    (step { lastGestureSent := none,
            gestureDebounce := some { remaining := 500, gesture := "fan_on" },
            detectedGesture := "" } (.frame noHand)).1.gestureDebounce
      = some { remaining := 500, gesture := "fan_on" } ∧
    (run { lastGestureSent := none,
           gestureDebounce := some { remaining := 500, gesture := "fan_on" },
           detectedGesture := "" } [.frame noHand, .elapse 500]).2 = ["fan_on"] := by
  refine ⟨rfl, rfl, rfl⟩

/-! ## What precedes a confirmation (C4) -/

/-- Every pending timer was set by a frame carrying its label, a label other than the last
sent one; the time since that frame and the time the timer has left add up to 1000 ms; and
every frame since carried no label, or the last sent label, or made the classifier raise. -/
theorem pending_timer_origin (s0 : GestureState) (h0 : s0.gestureDebounce = none)
    (es : List Event) (t : Timer) (ht : (run s0 es).1.gestureDebounce = some t) :
    ∃ pre r mid, es = pre ++ Event.frame r :: mid ∧
      observedGesture r = .ok (some t.gesture) ∧
      some t.gesture ≠ (run s0 pre).1.lastGestureSent ∧
      (run s0 es).1.lastGestureSent = (run s0 pre).1.lastGestureSent ∧
      t.remaining + elapsed mid = 1000 ∧ 1 ≤ t.remaining ∧
      ∀ r', Event.frame r' ∈ mid → ∀ M, observedGesture r' = .ok (some M) →
        some M = (run s0 pre).1.lastGestureSent := by
  induction es using List.reverseRecOn generalizing t with
  | nil =>
    rw [run_nil] at ht
    rw [h0] at ht
    cases ht
  | append_singleton es e ih =>
    rw [run_append, run_single] at ht
    have hlast : (run s0 (es ++ [e])).1 = (step (run s0 es).1 e).1 := by
      rw [run_append, run_single]
    simp only at ht
    cases e with
    | frame r =>
      obtain ⟨-, h2, h3⟩ := step_frame_cases (run s0 es).1 r
      rcases h3 with ⟨g, hr, hg, harm⟩ | ⟨hq, hkeep⟩
      · rw [harm] at ht
        cases ht
        exact ⟨es, r, [], rfl, hr, hg, by rw [hlast, h2], by simp [elapsed], by simp,
          by simp⟩
      · rw [hkeep] at ht
        obtain ⟨pre, r0, mid, hes, hr0, hne, hl, htime, hpos, hmid⟩ := ih t ht
        refine ⟨pre, r0, mid ++ [Event.frame r], by rw [hes]; simp, hr0, hne,
          by rw [hlast, h2, hl], by rw [elapsed_append]; simpa [elapsed] using htime, hpos, ?_⟩
        intro r' hr' M hM
        rcases List.mem_append.mp hr' with hin | hin
        · exact hmid r' hin M hM
        · simp only [List.mem_singleton, Event.frame.injEq] at hin
          subst hin
          rw [← hl]
          exact hq M hM
    | elapse ms =>
      cases hd : (run s0 es).1.gestureDebounce with
      | none =>
        rw [step_elapse_idle _ ms hd, hd] at ht
        cases ht
      | some t0 =>
        by_cases hms : t0.remaining ≤ ms
        · rw [(step_elapse_fire _ t0 ms hd hms).2.2] at ht
          cases ht
        · obtain ⟨-, e2, e3⟩ := step_elapse_lt _ t0 ms hd (Nat.lt_of_not_le hms)
          rw [e3] at ht
          cases ht
          obtain ⟨pre, r0, mid, hes, hr0, hne, hl, htime, hpos, hmid⟩ := ih t0 hd
          refine ⟨pre, r0, mid ++ [Event.elapse ms], by rw [hes]; simp, hr0, hne,
            by rw [hlast, e2, hl], ?_, ?_, ?_⟩
          · rw [elapsed_append]
            simp only [elapsed]
            omega
          · show 1 ≤ t0.remaining - ms
            omega
          · intro r' hr' M hM
            rcases List.mem_append.mp hr' with hin | hin
            · exact hmid r' hin M hM
            · simp at hin

/-- C4 (as amended): for every frame stream processed from a state without a pending timer and
every confirmation of a label L (sent while `dt` ms pass after the events `es`): the timer was
set by a frame carrying L exactly 1000 ms earlier, L not being the last sent label then, and
every frame processed since, inside the delay window, carried no label or the last sent label
(or made the classifier raise).  So no confirmation fires for a gesture once a frame with
another label that is not the last sent one, or with L again, arrived inside the window. -/
theorem confirmation_window (s0 : GestureState) (h0 : s0.gestureDebounce = none)
    (es : List Event) (dt : Nat) (L : String)
    (hfire : (step (run s0 es).1 (.elapse dt)).2 = [L]) :
    ∃ pre r mid, es = pre ++ Event.frame r :: mid ∧
      observedGesture r = .ok (some L) ∧
      some L ≠ (run s0 pre).1.lastGestureSent ∧
      elapsed mid < 1000 ∧ 1000 ≤ elapsed mid + dt ∧
      ∀ r', Event.frame r' ∈ mid → ∀ M, observedGesture r' = .ok (some M) →
        some M = (run s0 pre).1.lastGestureSent ∧ M ≠ L := by
  cases hd : (run s0 es).1.gestureDebounce with
  | none =>
    rw [step_elapse_idle _ dt hd] at hfire
    cases hfire
  | some t =>
    by_cases hms : t.remaining ≤ dt
    · rw [(step_elapse_fire _ t dt hd hms).1] at hfire
      simp only [List.cons.injEq, and_true] at hfire
      obtain ⟨pre, r, mid, hes, hr, hne, -, htime, hpos, hmid⟩ :=
        pending_timer_origin s0 h0 es t hd
      rw [hfire] at hr hne
      refine ⟨pre, r, mid, hes, hr, hne, by omega, by omega, fun r' hr' M hM => ?_⟩
      have hM' := hmid r' hr' M hM
      refine ⟨hM', fun hML => hne ?_⟩
      rw [← hM', hML]
    · rw [(step_elapse_lt _ t dt hd (Nat.lt_of_not_le hms)).1] at hfire
      cases hfire

theorem confirmation_window_witness :
    ∃ pre r mid, [Event.frame (oneHand thumbsUp), Event.elapse 500, Event.frame noHand]
        = pre ++ Event.frame r :: mid ∧
      observedGesture r = .ok (some "fan_on") ∧
      some "fan_on" ≠ (run GestureState.init pre).1.lastGestureSent ∧
      elapsed mid < 1000 ∧ 1000 ≤ elapsed mid + 500 ∧
      ∀ r', Event.frame r' ∈ mid → ∀ M, observedGesture r' = .ok (some M) →
        some M = (run GestureState.init pre).1.lastGestureSent ∧ M ≠ "fan_on" :=
  confirmation_window GestureState.init rfl
    [Event.frame (oneHand thumbsUp), Event.elapse 500, Event.frame noHand] 500 "fan_on" rfl

/-- C4 (as stated) fails: fan_on is seen once, 500 ms later a frame without a hand is
processed, and after another 500 ms fan_on is confirmed although a frame inside the delay
window carried no label; the same happens when the frame inside the window carries the last
sent label, light_off. -/
theorem confirmation_after_interrupted_hold :
    observedGesture noHand = .ok none ∧
    (run GestureState.init
      [.frame (oneHand thumbsUp), .elapse 500, .frame noHand, .elapse 500]).2 = ["fan_on"] ∧
    observedGesture (oneHand fist) = .ok (some "light_off") ∧
    (run { lastGestureSent := some "light_off", gestureDebounce := none, detectedGesture := "" }
      [.frame (oneHand thumbsUp), .elapse 500, .frame (oneHand fist), .elapse 500]).2
      = ["fan_on"] := by
  refine ⟨rfl, rfl, rfl, rfl⟩

/-! ## After a confirmation (C5) -/

/-- C5: once the timer for L has fired (one confirmation, `lastGestureSent = L`), every further
sequence of events whose frames carry L or no label sends nothing more and leaves
`lastGestureSent = L`; a sequence after which something more has been sent contains a frame
carrying a label different from L. -/
theorem no_refire_after_confirmation (s : GestureState) (t : Timer) (dt : Nat)
    (ht : s.gestureDebounce = some t) (hdt : t.remaining ≤ dt) :
    (step s (.elapse dt)).2 = [t.gesture] ∧
    (step s (.elapse dt)).1.lastGestureSent = some t.gesture ∧
    (∀ es : List Event,
      (∀ r, Event.frame r ∈ es →
        observedGesture r = .ok (some t.gesture) ∨ observedGesture r = .ok none) →
      (run (step s (.elapse dt)).1 es).2 = [] ∧
      (run (step s (.elapse dt)).1 es).1.lastGestureSent = some t.gesture) ∧
    (∀ es : List Event, (run (step s (.elapse dt)).1 es).2 ≠ [] →
      ∃ r M, Event.frame r ∈ es ∧ observedGesture r = .ok (some M) ∧ M ≠ t.gesture) := by
  obtain ⟨e1, e2, e3⟩ := step_elapse_fire s t dt ht hdt
  refine ⟨e1, e2, fun es hes => ?_, fun es hsent => ?_⟩
  · obtain ⟨i1, i2, -⟩ := run_quiet t.gesture es _ e3 e2 (by
      intro r hr M hM
      rcases hes r hr with h | h
      · rw [h] at hM
        simp only [Except.ok.injEq, Option.some.injEq] at hM
        exact hM.symm
      · rw [h] at hM
        cases hM)
    exact ⟨i1, i2⟩
  · by_contra hno
    push_neg at hno
    exact hsent (run_quiet t.gesture es _ e3 e2 (fun r hr M hM => hno r M hr hM)).1

theorem no_refire_after_confirmation_witness :
    (step { lastGestureSent := none,
            gestureDebounce := some { remaining := 1000, gesture := "fan_on" },
            detectedGesture := "" } (.elapse 1000)).2 = ["fan_on"] ∧
    (run (step { lastGestureSent := none,
                 gestureDebounce := some { remaining := 1000, gesture := "fan_on" },
                 detectedGesture := "" } (.elapse 1000)).1
      [.frame (oneHand thumbsUp), .elapse 2000, .frame noHand, .elapse 2000,
       .frame (oneHand thumbsUp), .elapse 2000]).2 = [] :=
  have h := no_refire_after_confirmation
    { lastGestureSent := none, gestureDebounce := some { remaining := 1000, gesture := "fan_on" },
      detectedGesture := "" }
    { remaining := 1000, gesture := "fan_on" } 1000 rfl (Nat.le_refl 1000)
  ⟨h.1, (h.2.2.1 [.frame (oneHand thumbsUp), .elapse 2000, .frame noHand, .elapse 2000,
      .frame (oneHand thumbsUp), .elapse 2000] (by
        intro r hr
        simp only [List.mem_cons, Event.frame.injEq, List.mem_singleton, List.not_mem_nil,
          or_false, false_or, reduceCtorEq] at hr
        rcases hr with rfl | rfl | rfl
        · exact Or.inl observed_thumbsUp
        · exact Or.inr observed_noHand
        · exact Or.inl observed_thumbsUp)).1⟩

/-! ## Alternating labels (C6) -/

/-- One run of a label sends nothing when, at its start, the label differs from the last sent
one or no timer is due within 500 ms; the same then holds at the start of a run of any
other label. -/
theorem run_of_label (x : String) (es : List Event) (s : GestureState)
    (hrun : IsRunOf x es)
    (hs : ∀ t, s.gestureDebounce = some t → some x = s.lastGestureSent → 500 ≤ t.remaining) :
    (run s es).2 = [] ∧ (run s es).1.lastGestureSent = s.lastGestureSent ∧
    ∀ y, y ≠ x → ∀ t, (run s es).1.gestureDebounce = some t →
      some y = (run s es).1.lastGestureSent → 500 ≤ t.remaining := by
  obtain ⟨⟨r, rest, rfl⟩, hframes, htime⟩ := hrun
  by_cases hx : some x = s.lastGestureSent
  · obtain ⟨n1, n2, -⟩ := run_no_fire 1 (Nat.le_refl 1) (Event.frame r :: rest) s (by omega)
      (fun t ht => by
        have := hs t ht hx
        omega)
    refine ⟨n1, n2, fun y hy t _ hyl => ?_⟩
    rw [n2, ← hx] at hyl
    simp only [Option.some.injEq] at hyl
    exact absurd hyl hy
  · have hr := hframes r (List.mem_cons_self _ _)
    obtain ⟨f1, f2, f3⟩ := step_frame_arm s r x hr hx
    simp only [elapsed] at htime
    obtain ⟨n1, n2, n3⟩ := run_no_fire 501 (by omega) rest (step s (.frame r)).1 (by omega)
      (fun t ht => by
        rw [f3] at ht
        cases ht
        show elapsed rest + 501 ≤ 1000
        omega)
    rw [run_cons]
    refine ⟨by simp [f1, n1], by rw [n2, f2], fun y _ t ht _ => ?_⟩
    have := n3 t ht
    omega

/-- Alternating runs send nothing, run after run. -/
theorem alternating_runs_whole (runs : List (List Event)) (a b : String) (hab : a ≠ b)
    (s : GestureState) (halt : Alternates a b runs)
    (hs : ∀ t, s.gestureDebounce = some t → some a = s.lastGestureSent → 500 ≤ t.remaining) :
    (run s (streamOf runs)).2 = [] := by
  induction runs generalizing s a b with
  | nil => rfl
  | cons es runs ih =>
    obtain ⟨hrun, hrest⟩ := halt
    obtain ⟨r1, -, r3⟩ := run_of_label a es s hrun hs
    rw [streamOf, run_append]
    have := ih b a (Ne.symm hab) (run s es).1 hrest (r3 b (Ne.symm hab))
    simp [r1, this]

/-- C6: for every two different labels A and B and every frame stream that alternates between
runs of A and runs of B, each run lasting less than 500 ms (from its first frame to the first
frame of the next run), started when no timer is pending (or, if one is, when it has at least
500 ms left or A is not the last sent label), nothing is sent at any point of the stream,
whatever the last sent label is. -/
theorem alternating_labels_send_nothing (a b : String) (hab : a ≠ b)
    (runs : List (List Event)) (s : GestureState) (halt : Alternates a b runs)
    (hs : ∀ t, s.gestureDebounce = some t → some a = s.lastGestureSent → 500 ≤ t.remaining)
    (n : Nat) :
    (run s ((streamOf runs).take n)).2 = [] := by
  have hwhole := alternating_runs_whole runs a b hab s halt hs
  rw [← List.take_append_drop n (streamOf runs), run_append] at hwhole
  exact (List.append_eq_nil.mp hwhole).1

theorem alternating_labels_send_nothing_witness :
    (run { lastGestureSent := some "fan_on", gestureDebounce := none, detectedGesture := "" }
      ((streamOf [[Event.frame (oneHand thumbsUp), Event.elapse 200,
          Event.frame (oneHand thumbsUp), Event.elapse 299],
        [Event.frame (oneHand fist), Event.elapse 499],
        [Event.frame (oneHand thumbsUp), Event.elapse 499],
        [Event.frame (oneHand fist), Event.elapse 499]]).take 9)).2 = [] :=
  alternating_labels_send_nothing "fan_on" "light_off" (by decide)
    [[Event.frame (oneHand thumbsUp), Event.elapse 200, Event.frame (oneHand thumbsUp),
        Event.elapse 299],
      [Event.frame (oneHand fist), Event.elapse 499],
      [Event.frame (oneHand thumbsUp), Event.elapse 499],
      [Event.frame (oneHand fist), Event.elapse 499]]
    { lastGestureSent := some "fan_on", gestureDebounce := none, detectedGesture := "" }
    (by
      refine ⟨⟨⟨_, _, rfl⟩, ?_, by decide⟩, ⟨⟨_, _, rfl⟩, ?_, by decide⟩,
        ⟨⟨_, _, rfl⟩, ?_, by decide⟩, ⟨⟨_, _, rfl⟩, ?_, by decide⟩, trivial⟩
      all_goals
        intro r hr
        simp only [List.mem_cons, Event.frame.injEq, List.mem_singleton, List.not_mem_nil,
          or_false, false_or, reduceCtorEq] at hr
        rcases hr with rfl | rfl <;> rfl)
    (by intro t ht; cases ht)
    9

/-! ## The event log (C7) -/

/-- The loop of `addLogToUI` keeps the first 50 children. -/
theorem limitLogItems_eq_take (children : List LogChild) :
    limitLogItems children = children.take 50 := by
  induction children using limitLogItems.induct with
  | case1 children h ih =>
    rw [limitLogItems, if_pos h, ih, List.dropLast_eq_take, List.take_take]
    congr 1
    omega
  | case2 children h =>
    rw [limitLogItems, if_neg h, List.take_of_length_le (by omega)]

theorem addLogToUI_eq (inMarkup : String → Bool) (children : List LogChild)
    (message timestamp : String) :
    addLogToUI inMarkup children message timestamp =
      (LogChild.item (logItemMarkup 8 message timestamp) ::
        (if children.any (LogChild.holdsLogEmpty inMarkup) then [] else children)).take 50 := by
  simp only [addLogToUI, limitLogItems_eq_take]

theorem addLogToUI_length_le (inMarkup : String → Bool) (children : List LogChild)
    (message timestamp : String) :
    (addLogToUI inMarkup children message timestamp).length ≤ 50 := by
  rw [addLogToUI_eq, List.length_take]
  exact Nat.min_le_left _ _

/-- When an element of class `log-empty` is found under `logContainer`, be it the placeholder
or an element inside an entry, every child is removed and the new entry is the only one. -/
theorem addLogToUI_clears (inMarkup : String → Bool) (children : List LogChild)
    (message timestamp : String)
    (h : children.any (LogChild.holdsLogEmpty inMarkup) = true) :
    addLogToUI inMarkup children message timestamp
      = [LogChild.item (logItemMarkup 8 message timestamp)] := by
  rw [addLogToUI_eq, if_pos h]
  rfl

theorem updateLog_length_le (children : List LogChild) (fetched : Option (List LogEntry))
    (hc : children.length ≤ 50) (hf : ∀ logs, fetched = some logs → logs.length ≤ 50) :
    (updateLog children fetched).length ≤ 50 := by
  cases fetched with
  | none => exact hc
  | some logs =>
    have := hf logs rfl
    simp only [updateLog]
    split_ifs
    · simp
    · simpa using this

/-- C7 (as amended): whatever the browser finds in the markup of the entries, a local prepend
leaves at most 50 children whatever the log held before; a refresh displays the fetched list
whole, one child per fetched entry; so after any sequence of the two operations in which every
fetched list has at most 50 entries the log holds at most 50; and a prepend onto a log of 50
children under which no element of class log-empty is found puts the new entry first and
drops the last child. -/
theorem log_bounded_when_fetched_lists_bounded (inMarkup : String → Bool)
    (children : List LogChild) (ops : List LogOp)
    (hc : children.length ≤ 50)
    (hops : ∀ logs, LogOp.refresh (some logs) ∈ ops → logs.length ≤ 50) :
    (applyLogOps inMarkup children ops).length ≤ 50 ∧
    (∀ (c : List LogChild) (message timestamp : String),
      (addLogToUI inMarkup c message timestamp).length ≤ 50) ∧
    (∀ (c : List LogChild) (logs : List LogEntry), logs ≠ [] →
      updateLog c (some logs)
        = logs.map (fun log => LogChild.item (logItemMarkup 20 log.message log.time)) ∧
      (updateLog c (some logs)).length = logs.length) ∧
    (∀ (c : List LogChild) (message timestamp : String), c.length = 50 →
      (∀ child ∈ c, LogChild.holdsLogEmpty inMarkup child = false) →
      addLogToUI inMarkup c message timestamp
        = LogChild.item (logItemMarkup 8 message timestamp) :: c.dropLast) := by
  refine ⟨?_, addLogToUI_length_le inMarkup, fun c logs hne => ?_,
    fun c message timestamp hlen hplain => ?_⟩
  · induction ops generalizing children with
    | nil => exact hc
    | cons op ops ih =>
      cases op with
      | refresh fetched =>
        refine ih _ (updateLog_length_le children fetched hc ?_) ?_
        · intro logs hl
          exact hops logs (by rw [hl]; exact List.mem_cons_self _ _)
        · exact fun logs hl => hops logs (List.mem_cons_of_mem _ hl)
      | prepend message timestamp =>
        exact ih _ (addLogToUI_length_le inMarkup children message timestamp)
          (fun logs hl => hops logs (List.mem_cons_of_mem _ hl))
  · have hl : logs.length ≠ 0 := fun h => hne (List.length_eq_zero.mp h)
    simp [updateLog, hl]
  · have hany : c.any (LogChild.holdsLogEmpty inMarkup) = false := by
      rw [List.any_eq_false]
      intro child hchild
      rw [hplain child hchild]
      exact Bool.false_ne_true
    rw [addLogToUI_eq, hany]
    simp only [Bool.false_eq_true, if_false]
    rw [List.dropLast_eq_take, hlen]
    rfl

theorem log_bounded_when_fetched_lists_bounded_witness :
    (applyLogOps plainText [LogChild.empty]
      [LogOp.refresh (some (fetchedLogs 50)), LogOp.prepend "Light turned ON" "12:00:01",
       LogOp.refresh none, LogOp.prepend "Camera stopped" "12:00:02"]).length ≤ 50 :=
  (log_bounded_when_fetched_lists_bounded plainText [LogChild.empty]
    [LogOp.refresh (some (fetchedLogs 50)), LogOp.prepend "Light turned ON" "12:00:01",
     LogOp.refresh none, LogOp.prepend "Camera stopped" "12:00:02"]
    (by decide)
    (by
      intro logs hl
      simp only [List.mem_cons, LogOp.refresh.injEq, Option.some.injEq, List.mem_singleton,
        List.not_mem_nil, or_false, false_or, reduceCtorEq] at hl
      subst hl
      simp [fetchedLogs])).1

/-- C7 (as stated) fails: a refresh with a fetched list of 51 entries leaves 51 entries in
the displayed log. -/
theorem refresh_with_51_entries_displays_51 :
    (fetchedLogs 51).length = 51 ∧
    (updateLog [LogChild.empty] (some (fetchedLogs 51))).length = 51 ∧
    (applyLogOps plainText [LogChild.empty] [LogOp.refresh (some (fetchedLogs 51))]).length
      = 51 := by
  simp [fetchedLogs, updateLog, applyLogOps]

/-! ## The gas reading (C8) -/

theorem updateGas_gasValueColor (ui : Dashboard) (v : Int) :
    (updateGas ui v).gasValueColor =
      (if v > 300 then "#ff4444" else if v > 150 then "#ffaa00" else "#44ff44") := by
  unfold updateGas
  split_ifs <;> rfl

theorem updateMotion_gasValueColor (ui : Dashboard) (motion : Bool) :
    (updateMotion ui motion).gasValueColor = ui.gasValueColor := by
  unfold updateMotion
  split_ifs <;> rfl

theorem updateLastGesture_gasValueColor (ui : Dashboard) (g : Option String) :
    (updateLastGesture ui g).gasValueColor = ui.gasValueColor := by
  unfold updateLastGesture
  split_ifs <;> rfl

/-- The status callback always completes (the page has both device elements), and the colour
of the gas reading is the one chosen at lines 38-44. -/
theorem updateStatus_gasValueColor (ui : Dashboard) (data : StatusSnapshot) :
    ∃ ui', updateStatus ui data = .ok ui' ∧
      ui'.gasValueColor =
        (if data.gas_value > 300 then "#ff4444"
         else if data.gas_value > 150 then "#ffaa00" else "#44ff44") := by
  refine ⟨_, rfl, ?_⟩
  rw [updateLastGesture_gasValueColor, updateMotion_gasValueColor, updateGas_gasValueColor]

/-- C8 (as amended): for every integer gas reading v the colour set by the status callback is
green (#44ff44) when v <= 150, amber (#ffaa00) when 150 < v <= 300 and red (#ff4444) when
v > 300; so 100 is green, 200 amber and 500 red. -/
theorem gas_colour_bands (ui : Dashboard) (data : StatusSnapshot) :
    ∃ ui', updateStatus ui data = .ok ui' ∧
      ui'.gasValueColor =
        (if data.gas_value ≤ 150 then "#44ff44"
         else if data.gas_value ≤ 300 then "#ffaa00" else "#ff4444") := by
  obtain ⟨ui', h1, h2⟩ := updateStatus_gasValueColor ui data
  refine ⟨ui', h1, ?_⟩
  rw [h2]
  split_ifs <;> first | rfl | omega

/-- C8 (as stated) fails at the reading 150: the claim puts it in the amber band
(150 <= v <= 300), the status callback sets green. -/
theorem gas_150_is_green :
    Option.map Dashboard.gasValueColor
      (updateStatus Dashboard.blank (statusWithGas 150)).toOption = some "#44ff44" ∧
    "#44ff44" ≠ "#ffaa00" := by
  refine ⟨?_, by decide⟩
  obtain ⟨ui', h1, h2⟩ := updateStatus_gasValueColor Dashboard.blank (statusWithGas 150)
  rw [h1]
  show some ui'.gasValueColor = some "#44ff44"
  rw [h2]
  rfl

/-! ## Device control (C9) -/

theorem addLogToUI_head (inMarkup : String → Bool) (children : List LogChild)
    (message timestamp : String) :
    ∃ tail, addLogToUI inMarkup children message timestamp
      = LogChild.item (logItemMarkup 8 message timestamp) :: tail := by
  rw [addLogToUI_eq]
  exact ⟨_, rfl⟩

theorem controlDevice_success (inMarkup : String → Bool) (ui : Dashboard) (device state : String) (error : Option String)
    (timestamp : String) (hd : device = "light" ∨ device = "fan") :
    (controlDevice inMarkup ui device state (.response true error) timestamp).statusElement device
      = some (shownStatus (toUpperCase state)) ∧
    (device = "light" →
      (controlDevice inMarkup ui device state (.response true error) timestamp).fanStatus = ui.fanStatus) ∧
    (device = "fan" →
      (controlDevice inMarkup ui device state (.response true error) timestamp).lightStatus
        = ui.lightStatus) ∧
    (controlDevice inMarkup ui device state (.response true error) timestamp).logContainer
      = addLogToUI inMarkup ui.logContainer
          (capitalize device ++ " turned " ++ toUpperCase state) timestamp ∧
    (controlDevice inMarkup ui device state (.response true error) timestamp).alerts = ui.alerts := by
  rcases hd with rfl | rfl
  · simp [controlDevice, updateDeviceStatus, Dashboard.statusElement]
  · simp [controlDevice, updateDeviceStatus, Dashboard.statusElement]

theorem controlDevice_not_success (inMarkup : String → Bool) (ui : Dashboard) (device state : String)
    (outcome : ControlOutcome) (timestamp : String)
    (hne : ∀ error, outcome ≠ .response true error) :
    (controlDevice inMarkup ui device state outcome timestamp).lightStatus = ui.lightStatus ∧
    (controlDevice inMarkup ui device state outcome timestamp).fanStatus = ui.fanStatus ∧
    (controlDevice inMarkup ui device state outcome timestamp).logContainer = ui.logContainer ∧
    ∃ notice, (controlDevice inMarkup ui device state outcome timestamp).alerts = ui.alerts ++ [notice] := by
  cases outcome with
  | response success error =>
    cases success with
    | true => exact absurd rfl (hne error)
    | false => exact ⟨rfl, rfl, rfl, _, rfl⟩
  | failure => exact ⟨rfl, rfl, rfl, _, rfl⟩

/-- C9: for device light or fan, state on or off and every outcome of the remote call: when
the response has success = true, the status element of that device shows the upper-cased state,
the other device and the alerts stay as they are, and one entry is put first in the log, whose
message is the capitalised device name, " turned " and the upper-cased state (so it names the
device and the state); on every other outcome (success = false, or a failed request) both
device elements and the log stay as they are and exactly one notice is raised. -/
theorem controlDevice_updates_exactly_on_success (inMarkup : String → Bool) (ui : Dashboard) (device state : String)
    (outcome : ControlOutcome) (timestamp : String)
    (hd : device = "light" ∨ device = "fan") (hs : state = "on" ∨ state = "off") :
    (∀ error, outcome = .response true error →
      (∃ el, (controlDevice inMarkup ui device state outcome timestamp).statusElement device = some el ∧
        el.textContent = toUpperCase state) ∧
      (device = "light" →
        (controlDevice inMarkup ui device state outcome timestamp).fanStatus = ui.fanStatus) ∧
      (device = "fan" →
        (controlDevice inMarkup ui device state outcome timestamp).lightStatus = ui.lightStatus) ∧
      (controlDevice inMarkup ui device state outcome timestamp).logContainer
        = addLogToUI inMarkup ui.logContainer
            (capitalize device ++ " turned " ++ toUpperCase state) timestamp ∧
      (∃ tail, (controlDevice inMarkup ui device state outcome timestamp).logContainer
        = LogChild.item
            (logItemMarkup 8 (capitalize device ++ " turned " ++ toUpperCase state) timestamp)
            :: tail) ∧
      lowerCased (capitalize device ++ " turned " ++ toUpperCase state)
        = device ++ " turned " ++ state ∧
      (toUpperCase state = "ON" ∨ toUpperCase state = "OFF") ∧
      (controlDevice inMarkup ui device state outcome timestamp).alerts = ui.alerts) ∧
    ((∀ error, outcome ≠ .response true error) →
      (controlDevice inMarkup ui device state outcome timestamp).lightStatus = ui.lightStatus ∧
      (controlDevice inMarkup ui device state outcome timestamp).fanStatus = ui.fanStatus ∧
      (controlDevice inMarkup ui device state outcome timestamp).logContainer = ui.logContainer ∧
      ∃ notice,
        (controlDevice inMarkup ui device state outcome timestamp).alerts = ui.alerts ++ [notice]) := by
  refine ⟨fun error ho => ?_, controlDevice_not_success inMarkup ui device state outcome timestamp⟩
  subst ho
  obtain ⟨c1, c2, c3, c4, c5⟩ := controlDevice_success inMarkup ui device state error timestamp hd
  refine ⟨⟨_, c1, ?_⟩, c2, c3, c4, ?_, ?_, ?_, c5⟩
  · rcases hs with rfl | rfl <;> rfl
  · rw [c4]
    exact addLogToUI_head _ _ _ _
  · rcases hd with rfl | rfl <;> rcases hs with rfl | rfl <;> decide
  · rcases hs with rfl | rfl
    · exact Or.inl (by decide)
    · exact Or.inr (by decide)

theorem controlDevice_updates_exactly_on_success_witness :
    (controlDevice plainText Dashboard.blank "light" "on" (.response true none) "12:00:00").lightStatus.textContent
      = "ON" ∧
    (controlDevice plainText Dashboard.blank "light" "on" (.response true none) "12:00:00").logContainer
      = [LogChild.item (logItemMarkup 8 "Light turned ON" "12:00:00")] ∧
    (controlDevice plainText Dashboard.blank "light" "on" (.response false (some "ESP offline"))
      "12:00:00").logContainer = Dashboard.blank.logContainer := by
  have h := controlDevice_updates_exactly_on_success plainText Dashboard.blank "light" "on"
    (.response true none) "12:00:00" (Or.inl rfl) (Or.inl rfl)
  have h' := controlDevice_updates_exactly_on_success plainText Dashboard.blank "light" "on"
    (.response false (some "ESP offline")) "12:00:00" (Or.inl rfl) (Or.inl rfl)
  obtain ⟨⟨el, he, htext⟩, -, -, hlog, -⟩ := h.1 none rfl
  refine ⟨?_, ?_, (h'.2 (by intro e; simp)).2.2.1⟩
  · simp only [Dashboard.statusElement, if_true, Option.some.injEq] at he
    rw [he, htext]
    decide
  · rw [hlog, addLogToUI_eq]
    decide

end RoomMate
